import Mathlib

/-!
Shallow embedding of the pf-to-zoho lead relay (techwork-deenproperty/pf-to-zoho).

The repository contains two implementation variants of the same service:
  variant A: src/index.js           (retry-queue variant, no dedup ledger)
  variant B: src/unnamed/part_001   (dedup-ledger variant, listing enrichment)
Definitions suffixed with nothing or `P001` come from part_001; definitions
suffixed `Idx` (or documented as such) come from index.js.

Modelling conventions:
  * JavaScript nullable strings are `Option String`; JS truthiness of a string
    is `truthy` below (null and the empty string are falsy).
  * `Date.now()` is an explicit `now : Int` argument (milliseconds).
  * Network calls (axios) are oracles passed in as `HttpResult` values:
    `.ok body` is a 2xx transport response with the given parsed body,
    `.fail` is a thrown axios error (network failure or non-2xx after the
    axios-retry budget is exhausted).
  * `crypto.createHmac("sha256", secret)...digest("hex")` is abstracted as a
    deterministic function `hmacOfBody : LeadBody -> String` passed to the
    handlers (the digest of the serialized body under the shared secret).
  * The MD5 digest in generateLeadId is modelled as the identity on its input
    string: dedup behaviour depends only on equality of digests, and equal
    inputs give equal digests either way.
  * `tokenCache.*.expiresAt` is `Option Int`; `none` models the JS `NaN`
    produced by index.js when `expires_in` is absent (every `<` comparison
    against NaN is false, captured by `jsLtB`).
-/

namespace PfToZoho

/-- JS truthiness of a nullable string: null/undefined and the empty string are falsy. -/
def truthy : Option String → Bool
  | none => false
  | some s => s != ""

/-- JS template/`|| ""` coercion of a nullable string to a string. -/
def jsStrT : Option String → String
  | none => ""
  | some s => s

/-- JS `a || b` on nullable strings (falsy left operand falls through). -/
def jsOrS (a b : Option String) : Option String :=
  if truthy a then a else b

/-- JS `a || b` where the operands are objects (present objects are truthy). -/
def jsOrO {α : Type} (a b : Option α) : Option α :=
  match a with
  | some x => some x
  | none => b

/-- JS `n || d` on a nullable number: undefined and 0 are falsy. -/
def jsOrI (o : Option Int) (d : Int) : Int :=
  match o with
  | none => d
  | some n => if n = 0 then d else n

/-- JS `now < expiresAt` where `expiresAt` may be NaN (`none`): NaN comparisons are false. -/
def jsLtB (now : Int) (expiresAt : Option Int) : Bool :=
  match expiresAt with
  | none => false
  | some e => decide (now < e)

/-! ## Inbound data model (webhook body shapes) -/

/-- One typed entry of the `sender.contacts` array. -/
structure Contact where
  type : String
  value : String
  deriving DecidableEq, Repr

/-- The `sender` object of a Property Finder lead. -/
structure Sender where
  name : Option String
  contacts : List Contact
  deriving DecidableEq, Repr

/-- The `listing` object of a Property Finder lead (only the id is read outside the Description text). -/
structure Listing where
  id : Option String
  deriving DecidableEq, Repr

/-- The `payload` wrapper of a Property Finder lead. -/
structure Payload where
  sender : Option Sender
  listing : Option Listing
  channel : Option String
  deriving DecidableEq, Repr

/-- A raw webhook body: either nested under `payload` or flat. -/
structure LeadBody where
  id : Option String
  payload : Option Payload
  sender : Option Sender
  listing : Option Listing
  channel : Option String
  deriving DecidableEq, Repr

/-- JS `lead.payload || lead`: the effective payload object (the flat body itself when no wrapper). -/
def effPayload (b : LeadBody) : Payload :=
  match b.payload with
  | some p => p
  | none => { sender := b.sender, listing := b.listing, channel := b.channel }

/-- part_001 line 288: `const sender = payload.sender || lead.sender`. -/
def p001Sender (b : LeadBody) : Option Sender :=
  jsOrO (effPayload b).sender b.sender

/-- index.js line 230: `const sender = payload.sender` (no flat fallback). -/
def idxSender (b : LeadBody) : Option Sender :=
  (effPayload b).sender

/-! ## Contact extraction -/

/-- Result record of part_001 extractContacts. -/
structure Contacts3 where
  email : Option String
  phone : Option String
  mobile : Option String
  deriving DecidableEq, Repr

/-- Second statement of the part_001 phone/mobile branch (line 237): a mobile
entry additionally sets mobile when mobile is still falsy. -/
def extractStepMob (acc1 : Contacts3) (c : Contact) : Contacts3 :=
  if c.type = "mobile" ∧ truthy acc1.mobile = false then ⟨acc1.email, acc1.phone, some c.value⟩
  else acc1

/-- part_001 phone/mobile branch (lines 235-238): first statement sets phone
when phone is still falsy, then the mobile statement runs on the result. -/
def extractStepPM (acc : Contacts3) (c : Contact) : Contacts3 :=
  extractStepMob (if truthy acc.phone = false then ⟨acc.email, some c.value, acc.mobile⟩ else acc) c

/-- Loop body of part_001 extractContacts (lines 232-239): an email entry is taken
when email is still falsy; otherwise a phone/mobile entry runs the phone/mobile
branch. -/
def extractStep (acc : Contacts3) (c : Contact) : Contacts3 :=
  if c.type = "email" ∧ truthy acc.email = false then ⟨some c.value, acc.phone, acc.mobile⟩
  else if c.type = "phone" ∨ c.type = "mobile" then
    extractStepPM acc c
  else acc

/-- part_001 lines 223-242: extractContacts. The returned phone is `phone || mobile`
where the loop set `phone` from the first phone-or-mobile typed entry. -/
def extractContacts (contacts : List Contact) : Contacts3 :=
  if contacts.isEmpty then ⟨none, none, none⟩
  else
    let r := contacts.foldl extractStep ⟨none, none, none⟩
    ⟨r.email, jsOrS r.phone r.mobile, r.mobile⟩

/-- Result record of index.js extractContacts. -/
structure Contacts2 where
  email : Option String
  phone : Option String
  deriving DecidableEq, Repr

/-- Second statement of the index.js extractContacts loop (line 121): phone is
taken from a phone-or-mobile typed entry when phone is still falsy. -/
def extractStepIdxPh (acc1 : Contacts2) (c : Contact) : Contacts2 :=
  if (c.type = "phone" ∨ c.type = "mobile") ∧ truthy acc1.phone = false then
    ⟨acc1.email, some c.value⟩
  else acc1

/-- Loop body of index.js extractContacts (lines 119-122): two sequential ifs,
an email entry is taken when email is still falsy, then the phone statement
runs on the result. -/
def extractStepIdx (acc : Contacts2) (c : Contact) : Contacts2 :=
  extractStepIdxPh
    (if c.type = "email" ∧ truthy acc.email = false then ⟨some c.value, acc.phone⟩ else acc) c

/-- index.js lines 113-125: extractContacts. -/
def extractContactsIdx (contacts : List Contact) : Contacts2 :=
  contacts.foldl extractStepIdx ⟨none, none⟩

/-! ## Name parsing -/

/-- Whitespace split of a trimmed JS string by the regex \s+ (runs collapse). -/
def splitWs (s : String) : List String :=
  (s.trim.split Char.isWhitespace).filter (fun t => t ≠ "")

/-- parseFullName (index.js lines 99-108, part_001 lines 51-64): falsy name gives
Unknown/Lead, a single token keeps the placeholder last name "Lead", several
tokens split at the first. A whitespace-only name yields an empty first name,
as does the JS split of the empty trimmed string. -/
def parseFullName (fullName : Option String) : String × String :=
  if truthy fullName = false then ("Unknown", "Lead")
  else
    match splitWs (jsStrT fullName) with
    | [] => ("", "Lead")
    | [t] => (t, "Lead")
    | t :: rest => (t, String.intercalate " " rest)

/-! ## Lead fingerprint (part_001 generateLeadId, lines 245-253).
MD5 is modelled as the identity on the pre-image string. -/

/-- part_001 generateLeadId: digest of `lead.id`, the extracted email and the
extracted phone, joined with underscores (falsy components become the empty string). -/
def generateLeadId (b : LeadBody) : String :=
  let sender := p001Sender b
  let contacts := match sender with
    | some s => s.contacts
    | none => []
  let c := extractContacts contacts
  jsStrT b.id ++ "_" ++ jsStrT c.email ++ "_" ++ jsStrT c.phone

/-! ## Token caching -/

/-- One entry of the token cache: `{ token: null, expiresAt: 0 }` initially. -/
structure TokenCacheEntry where
  token : Option String
  expiresAt : Option Int
  deriving DecidableEq, Repr

/-- The initial cache entry `{ token: null, expiresAt: 0 }`. -/
def TokenCacheEntry.init : TokenCacheEntry := ⟨none, some 0⟩

/-- Guard of every token getter: `tokenCache.x.token && Date.now() < tokenCache.x.expiresAt`. -/
def cacheValid (c : TokenCacheEntry) (now : Int) : Bool :=
  truthy c.token && jsLtB now c.expiresAt

/-- Outcome of a token getter: the returned bearer token, or a thrown auth error. -/
inductive TokenResult where
  | ok (token : String)
  | authError
  deriving DecidableEq, Repr

/-- Parsed body of the Property Finder token endpoint. -/
structure PFTokenResponse where
  accessToken : Option String
  deriving DecidableEq, Repr

/-- Parsed body of the Zoho token endpoint (`expires_in` in seconds). -/
structure ZohoTokenResponse where
  access_token : Option String
  expires_in : Option Int
  deriving DecidableEq, Repr

/-- Transport outcome of one axios call: 2xx with a parsed body, or a thrown error
(network failure / non-2xx after the axios-retry budget). -/
inductive HttpResult (α : Type) where
  | ok (body : α)
  | fail
  deriving DecidableEq, Repr

/-- part_001 lines 67-92 getPFToken: cache hit returns the cached token with no
network call; otherwise one exchange call; a missing accessToken in the body
throws before the cache is mutated; success caches for a flat 50 minutes.
The third component counts upstream exchange calls made by this invocation.
(index.js lines 130-143 has the identical caching logic without the body check,
embedded separately as getPFTokenIdx.) -/
def getPFToken (cache : TokenCacheEntry) (now : Int) (net : HttpResult PFTokenResponse) :
    TokenResult × TokenCacheEntry × Nat :=
  if cacheValid cache now then (.ok (jsStrT cache.token), cache, 0)
  else
    match net with
    | .fail => (.authError, cache, 1)
    | .ok body =>
      if truthy body.accessToken = false then (.authError, cache, 1)
      else (.ok (jsStrT body.accessToken),
            { token := body.accessToken, expiresAt := some (now + 50 * 60 * 1000) }, 1)

/-- index.js lines 130-143 getPFToken: same caching, no validation of the body. -/
def getPFTokenIdx (cache : TokenCacheEntry) (now : Int) (net : HttpResult PFTokenResponse) :
    TokenResult × TokenCacheEntry × Nat :=
  if cacheValid cache now then (.ok (jsStrT cache.token), cache, 0)
  else
    match net with
    | .fail => (.authError, cache, 1)
    | .ok body =>
      (.ok (jsStrT body.accessToken),
       { token := body.accessToken, expiresAt := some (now + 50 * 60 * 1000) }, 1)

/-- part_001 lines 95-125 getZohoAccessToken: cache hit short-circuits; a missing
access_token throws; otherwise the expiry is `now + (expires_in || 3600)*1000 - 10*60*1000`
(ten-minute safety buffer, 3600 s default when the body reports no TTL). -/
def getZohoAccessTokenP001 (cache : TokenCacheEntry) (now : Int)
    (net : HttpResult ZohoTokenResponse) : TokenResult × TokenCacheEntry × Nat :=
  if cacheValid cache now then (.ok (jsStrT cache.token), cache, 0)
  else
    match net with
    | .fail => (.authError, cache, 1)
    | .ok body =>
      if truthy body.access_token = false then (.authError, cache, 1)
      else (.ok (jsStrT body.access_token),
            { token := body.access_token,
              expiresAt := some (now + jsOrI body.expires_in 3600 * 1000 - 10 * 60 * 1000) }, 1)

/-- index.js lines 148-165 getZohoAccessToken: no body validation and no safety
margin; the expiry is `Date.now() + expires_in*1000` exactly (NaN, modelled as
`none`, when the body carries no expires_in). -/
def getZohoAccessTokenIdx (cache : TokenCacheEntry) (now : Int)
    (net : HttpResult ZohoTokenResponse) : TokenResult × TokenCacheEntry × Nat :=
  if cacheValid cache now then (.ok (jsStrT cache.token), cache, 0)
  else
    match net with
    | .fail => (.authError, cache, 1)
    | .ok body =>
      (.ok (jsStrT body.access_token),
       { token := body.access_token,
         expiresAt := (body.expires_in).map (fun n => now + n * 1000) }, 1)

/-! ## Zoho create-record call -/

/-- One element of the `data` array of a Zoho create-record 2xx envelope:
an embedded per-record status plus the created record id (top-level or under details). -/
structure ZohoRecordResult where
  status : Option String
  message : Option String
  idTop : Option String
  detailsId : Option String
  deriving DecidableEq, Repr

/-- Parsed body of a Zoho create-record 2xx envelope. -/
structure ZohoCreateResponse where
  data : List ZohoRecordResult
  deriving DecidableEq, Repr

/-- part_001 lines 402-404: `responseData?.details?.id || responseData?.id || null`. -/
def zohoLeadIdOf (rd : ZohoRecordResult) : Option String :=
  if truthy rd.detailsId then rd.detailsId
  else if truthy rd.idTop then rd.idTop
  else none

/-- part_001 lines 392-404: inspect the 2xx envelope body. The first record of
`data` is read; a status of "error" is thrown; otherwise the extracted lead id
(possibly null) is the result. -/
def p001CheckZohoResponse (body : ZohoCreateResponse) : Except String (Option String) :=
  match body.data.head? with
  | some rd =>
    if rd.status = some "error" then .error (jsStrT rd.message)
    else .ok (zohoLeadIdOf rd)
  | none => .ok none

/-- The canonical lead record built by the index.js webhook handler (lines 243-250). -/
structure CleanLead where
  firstName : String
  lastName : String
  email : Option String
  phone : Option String
  reference : String
  channel : String
  deriving DecidableEq, Repr

/-- Outbound Zoho record as built by index.js pushLeadToZoho (lines 190-202). -/
structure ZohoLeadOut where
  First_Name : String
  Last_Name : String
  Email : Option String
  Phone : Option String
  Mobile : Option String
  Lead_Source : String
  Description : String
  deriving DecidableEq, Repr

/-- index.js lines 190-202: field mapping of the create-record payload
(Mobile duplicates the phone; the description carries reference and channel). -/
def buildZohoPayloadIdx (l : CleanLead) : ZohoLeadOut :=
  { First_Name := l.firstName
    Last_Name := l.lastName
    Email := l.email
    Phone := l.phone
    Mobile := l.phone
    Lead_Source := "Property Finder"
    Description := "Property Reference: " ++ (if l.reference = "" then "N/A" else l.reference)
      ++ "\nChannel: " ++ (if l.channel = "" then "N/A" else l.channel) }

/-- Outcome of index.js pushLeadToZoho as observed by its callers. -/
inductive PushOutcome where
  | ok (body : ZohoCreateResponse)
  | err
  deriving DecidableEq, Repr

/-- index.js lines 186-214 pushLeadToZoho: fetch a Zoho token (a failure there is
rethrown), post the record, and return `res.data` as-is on any 2xx transport
response. The body is never inspected. The last component counts create-record
calls actually sent. -/
def pushLeadToZoho (cache : TokenCacheEntry) (now : Int)
    (tokenNet : HttpResult ZohoTokenResponse) (createNet : HttpResult ZohoCreateResponse) :
    PushOutcome × TokenCacheEntry × Nat :=
  match getZohoAccessTokenIdx cache now tokenNet with
  | (.authError, c, _) => (.err, c, 0)
  | (.ok _, c, _) =>
    match createNet with
    | .fail => (.err, c, 1)
    | .ok body => (.ok body, c, 1)

/-! ## Dedup ledger (part_001 lines 46-48 and 406-415).
The JS Set `processedLeads` iterates in insertion order and `add` of a present
element is a no-op that keeps the original position; it is modelled as a
duplicate-free list whose head is the oldest insertion. -/

/-- part_001 line 48. -/
def LEAD_CACHE_SIZE : Nat := 1000

/-- JS `Set.add`: append when absent, keep the set (and its order) when present. -/
def setAdd (s : List String) (x : String) : List String :=
  if x ∈ s then s else s ++ [x]

/-- part_001 lines 412-415: when the set has outgrown LEAD_CACHE_SIZE, delete
`processedLeads.values().next().value`, the first-inserted element. -/
def evictIfOver (s : List String) : List String :=
  if LEAD_CACHE_SIZE < s.length then s.tail else s

/-- One ledger `record` operation: the conditional add of part_001 line 408
followed by the size check of lines 412-415. -/
def recordLead (s : List String) (x : String) : List String :=
  evictIfOver (setAdd s x)

/-! ## Signature validation -/

/-- validateWebhookSignature (index.js lines 170-181, part_001 lines 178-220):
a missing x-signature header is rejected; otherwise the header is compared with
the expected HMAC-SHA256 hex digest of the serialized body (part_001 first
rejects on a length mismatch and then uses a constant-time comparison; both
reduce to equality of the two strings). -/
def validateWebhookSignature (signature : Option String) (expectedDigest : String) : Bool :=
  match signature with
  | none => false
  | some s => s == expectedDigest

/-! ## Durable retry queue persistence (index.js lines 75-93).
The persisted JSON file is modelled by its parsed contents `List CleanLead`;
read and write faults of the fs layer are explicit Bool inputs. -/

/-- index.js loadPending: any read or parse error is caught and yields the empty list. -/
def loadPending (file : List CleanLead) (readFault : Bool) : List CleanLead :=
  if readFault then [] else file

/-- index.js savePending: writeFileSync either persists the new list or throws. -/
def savePending (newList : List CleanLead) (writeFault : Bool) : Except Unit (List CleanLead) :=
  if writeFault then .error () else .ok newList

/-- index.js addPendingLead: load, append, save. The result is the new file
contents, or the propagated write error (the file keeps its old contents then). -/
def addPendingLead (file : List CleanLead) (leadObj : CleanLead)
    (readFault writeFault : Bool) : Except Unit (List CleanLead) :=
  savePending (loadPending file readFault ++ [leadObj]) writeFault

/-! ## Webhook handlers -/

/-- Side-effect counters observable from one request: how many times the
normalization helpers, the dedup ledger, the Zoho create-record call and the
durable-queue enqueue ran. -/
structure Effects where
  normalizeCalls : Nat
  dedupReads : Nat
  dedupWrites : Nat
  deliveryCalls : Nat
  enqueues : Nat
  deriving DecidableEq, Repr

/-- All-zero effect counters. -/
def Effects.zero : Effects := ⟨0, 0, 0, 0, 0⟩

/-- An inbound webhook request: the x-signature header and the parsed JSON body. -/
structure Request where
  signature : Option String
  body : LeadBody
  deriving DecidableEq, Repr

/-- Shared mutable state of the part_001 process: both token cache entries and
the processedLeads dedup set. -/
structure P001State where
  pfCache : TokenCacheEntry
  zohoCache : TokenCacheEntry
  processedLeads : List String
  deriving DecidableEq, Repr

/-- Network oracles for one part_001 request: the Zoho token exchange, the
Property Finder token exchange, the listing-detail fetch (its body only feeds
the Description text and is not modelled further) and the Zoho create call. -/
structure P001World where
  zohoTokenNet : HttpResult ZohoTokenResponse
  pfTokenNet : HttpResult PFTokenResponse
  listingNet : HttpResult Unit
  zohoCreateNet : HttpResult ZohoCreateResponse
  deriving DecidableEq, Repr

/-- Response of the part_001 webhook handler: 401 invalid signature, 400 missing
sender, 200 duplicate skipped, 400 no contact, 200 success carrying the
(possibly null) Zoho lead id, or the catch-all error response. -/
inductive P001Response where
  | unauthorized
  | invalidLead
  | duplicate
  | noContact
  | success (zohoLeadId : Option String)
  | serverError
  deriving DecidableEq, Repr

/-- part_001 lines 256-268 getListingDetails: fetch a PF token and the listing;
every error is caught and yields null. Only the pf cache mutation is observable. -/
def getListingDetails (pfCache : TokenCacheEntry) (now : Int)
    (pfNet : HttpResult PFTokenResponse) (listingNet : HttpResult Unit) :
    Option Unit × TokenCacheEntry :=
  match getPFToken pfCache now pfNet with
  | (.authError, c, _) => (none, c)
  | (.ok _, c, _) =>
    match listingNet with
    | .fail => (none, c)
    | .ok d => (some d, c)

/-- Effect counters of the part_001 paths that ran extraction and the dedup read. -/
def effAfterDedup : Effects := ⟨1, 1, 0, 0, 0⟩

/-- Effect counters of a part_001 path that also attempted the Zoho create call. -/
def effDelivered (writes : Nat) : Effects := ⟨1, 1, writes, 1, 0⟩

/-- part_001 lines 271-455, the POST /propertyfinder-lead handler: signature
gate, payload/sender resolution, contact extraction, dedup check, contact
validation, Zoho token, optional listing enrichment, create call, body
inspection, conditional ledger insert and size-bounded eviction.
`hmacOfBody` abstracts the HMAC-SHA256 hex digest of the serialized body. -/
def p001Handler (hmacOfBody : LeadBody → String) (s : P001State) (now : Int)
    (w : P001World) (req : Request) : P001Response × P001State × Effects :=
  if validateWebhookSignature req.signature (hmacOfBody req.body) = false then
    (.unauthorized, s, Effects.zero)
  else
    match p001Sender req.body with
    | none => (.invalidLead, s, Effects.zero)
    | some sender =>
      let c := extractContacts sender.contacts
      let leadId := generateLeadId req.body
      if leadId ∈ s.processedLeads then
        (.duplicate, s, effAfterDedup)
      else if truthy c.email = false ∧ truthy c.phone = false then
        (.noContact, s, effAfterDedup)
      else
        match getZohoAccessTokenP001 s.zohoCache now w.zohoTokenNet with
        | (.authError, zc, _) => (.serverError, { s with zohoCache := zc }, effAfterDedup)
        | (.ok _, zc, _) =>
          let listing := jsOrO (effPayload req.body).listing req.body.listing
          let pfc :=
            if truthy (listing.bind Listing.id) then
              (getListingDetails s.pfCache now w.pfTokenNet w.listingNet).2
            else s.pfCache
          let s1 : P001State := { pfCache := pfc, zohoCache := zc, processedLeads := s.processedLeads }
          match w.zohoCreateNet with
          | .fail => (.serverError, s1, effDelivered 0)
          | .ok body =>
            match p001CheckZohoResponse body with
            | .error _ => (.serverError, s1, effDelivered 0)
            | .ok zid =>
              let pl1 := if truthy zid then setAdd s.processedLeads leadId else s.processedLeads
              (.success zid, { s1 with processedLeads := evictIfOver pl1 },
               effDelivered (if truthy zid then 1 else 0))

/-- Shared mutable state of the index.js process: the Zoho token cache entry and
the persisted pending-leads file contents (the PF cache is never touched by its
webhook handler). -/
structure IdxState where
  zohoCache : TokenCacheEntry
  pending : List CleanLead
  deriving DecidableEq, Repr

/-- Network and filesystem oracles for one index.js request. -/
structure IdxWorld where
  zohoTokenNet : HttpResult ZohoTokenResponse
  zohoCreateNet : HttpResult ZohoCreateResponse
  readFault : Bool
  writeFault : Bool
  deriving DecidableEq, Repr

/-- Response of the index.js webhook handler: 401, 400 missing sender, 400 no
contact, 200 sent, 200 stored for retry, or 500 server error. -/
inductive IdxResponse where
  | unauthorized
  | invalidLead
  | noContact
  | sent
  | savedForRetry
  | serverError
  deriving DecidableEq, Repr

/-- index.js lines 219-272, the POST /propertyfinder-lead handler: signature
gate, sender resolution, contact extraction and validation, name parse, lead
build, immediate push; a push failure enqueues the lead in the pending file and
still answers 200, and an enqueue write error falls to the outer catch (500). -/
def idxHandler (hmacOfBody : LeadBody → String) (s : IdxState) (now : Int)
    (w : IdxWorld) (req : Request) : IdxResponse × IdxState × Effects :=
  if validateWebhookSignature req.signature (hmacOfBody req.body) = false then
    (.unauthorized, s, Effects.zero)
  else
    match idxSender req.body with
    | none => (.invalidLead, s, Effects.zero)
    | some sender =>
      let c := extractContactsIdx sender.contacts
      if truthy c.email = false ∧ truthy c.phone = false then
        (.noContact, s, ⟨1, 0, 0, 0, 0⟩)
      else
        let nm := parseFullName sender.name
        let cleanLead : CleanLead :=
          { firstName := nm.1, lastName := nm.2, email := c.email, phone := c.phone
            reference := jsStrT ((effPayload req.body).listing.bind Listing.id)
            channel := jsStrT (effPayload req.body).channel }
        match pushLeadToZoho s.zohoCache now w.zohoTokenNet w.zohoCreateNet with
        | (.ok _, zc, n) => (.sent, { zohoCache := zc, pending := s.pending }, ⟨1, 0, 0, n, 0⟩)
        | (.err, zc, n) =>
          match addPendingLead s.pending cleanLead w.readFault w.writeFault with
          | .ok newFile => (.savedForRetry, { zohoCache := zc, pending := newFile }, ⟨1, 0, 0, n, 1⟩)
          | .error _ => (.serverError, { zohoCache := zc, pending := s.pending }, ⟨1, 0, 0, n, 0⟩)

/-! ## Drain of the durable retry queue (index.js lines 279-308) -/

/-- Response of GET /retry-pending: the early no-pending message, or the counts
object `{ total, success, failed, remaining }`. -/
inductive DrainResponse where
  | noPending
  | counts (total success failed remaining : Nat)
  deriving DecidableEq, Repr

/-- The retry loop of index.js lines 289-297, with explicit accumulators for the
success count, the failure count, the stillPending list and the list of leads
attempted so far. `oracle` tells whether the pushLeadToZoho attempt for a given
lead succeeds. -/
def drainGo (oracle : CleanLead → Bool) :
    List CleanLead → Nat → Nat → List CleanLead → List CleanLead →
    Nat × Nat × List CleanLead × List CleanLead
  | [], s, f, still, att => (s, f, still, att)
  | l :: ls, s, f, still, att =>
    if oracle l then drainGo oracle ls (s + 1) f still (att ++ [l])
    else drainGo oracle ls s (f + 1) (still ++ [l]) (att ++ [l])

/-- index.js lines 279-308, GET /retry-pending: an empty pending list answers the
no-pending message without rewriting the file; otherwise every lead is retried in
order, the still-failing ones are saved back, and the counts are reported. The
result carries the response, the persisted list afterwards, and the leads that
were attempted, in order. -/
def retryPending (pending : List CleanLead) (oracle : CleanLead → Bool) :
    DrainResponse × List CleanLead × List CleanLead :=
  if pending.isEmpty then (.noPending, pending, [])
  else
    match drainGo oracle pending 0 0 [] [] with
    | (s, f, still, att) => (.counts pending.length s f still.length, still, att)

/-! ## Concrete fixtures used by witnesses and counterexamples -/

/-- Concrete inbound body: a nested-payload lead with one email contact. -/
def exBody : LeadBody :=
  { id := some "L1"
    payload := some { sender := some { name := some "Jane Doe", contacts := [⟨"email", "j@x.com"⟩] },
                      listing := none, channel := some "email" }
    sender := none, listing := none, channel := none }

/-- Concrete digest oracle: every serialized body signs to "SIG". -/
def exHmac : LeadBody → String := fun _ => "SIG"

/-- Correctly signed concrete request for exBody. -/
def exReq : Request := { signature := some "SIG", body := exBody }

/-- Fresh part_001 process state. -/
def exS0 : P001State := ⟨TokenCacheEntry.init, TokenCacheEntry.init, []⟩

/-- World in which every upstream call succeeds and Zoho creates record Z1. -/
def exWorldOk : P001World :=
  { zohoTokenNet := .ok ⟨some "ZT", some 3600⟩
    pfTokenNet := .ok ⟨some "PT"⟩
    listingNet := .ok ()
    zohoCreateNet := .ok ⟨[{ status := some "success", message := none, idTop := none, detailsId := some "Z1" }]⟩ }

/-- Concrete Zoho 2xx envelope whose single record carries an embedded error status. -/
def exErrEnvelope : ZohoCreateResponse :=
  ⟨[{ status := some "error", message := some "INVALID_DATA", idTop := none, detailsId := none }]⟩

/-- World in which the Zoho create call returns 2xx carrying an embedded record error. -/
def exWorldErr : P001World :=
  { zohoTokenNet := .ok ⟨some "ZT", some 3600⟩
    pfTokenNet := .ok ⟨some "PT"⟩
    listingNet := .ok ()
    zohoCreateNet := .ok exErrEnvelope }

/-- Fresh index.js process state. -/
def exIdxS0 : IdxState := ⟨TokenCacheEntry.init, []⟩

/-- Fault-free index.js world with a working Zoho upstream. -/
def exIdxWorld : IdxWorld :=
  { zohoTokenNet := .ok ⟨some "ZT", some 3600⟩
    zohoCreateNet := .ok ⟨[]⟩, readFault := false, writeFault := false }

/-- Concrete queued lead. -/
def exLeadOld : CleanLead := ⟨"Old", "Lead", some "old@x.com", none, "", ""⟩

/-- Concrete newly arriving lead. -/
def exLeadNew : CleanLead := ⟨"New", "Lead", none, some "+971500000000", "", ""⟩

/-- Concrete delivery oracle for drain witnesses: leads with an email deliver. -/
def exOracle : CleanLead → Bool := fun l => l.email.isSome

/-! ## Small helper lemmas about the embedding -/

/-- evictIfOver is the identity on a ledger within capacity. -/
theorem evictIfOver_of_le {l : List String} (h : l.length ≤ LEAD_CACHE_SIZE) :
    evictIfOver l = l := by
  unfold evictIfOver
  rw [if_neg]
  omega

/-- An element just appended to the ledger survives the size check. -/
theorem mem_evictIfOver_append (pl : List String) (x : String) :
    x ∈ evictIfOver (pl ++ [x]) := by
  unfold evictIfOver
  split
  · cases pl with
    | nil => simp [LEAD_CACHE_SIZE] at *
    | cons a t => simp
  · simp

/-- A Bool-valued falsy nullable string that is not the non-empty some is none. -/
theorem eq_none_of_not_truthy {a : Option String} (h : truthy a = false) (hne : a ≠ some "") :
    a = none := by
  cases a with
  | none => rfl
  | some v =>
    exfalso
    simp [truthy] at h
    exact hne (by rw [h])

/-! ## C1 -/

/-- C1 counterexample: index.js pushLeadToZoho, called with a fresh cache, a
working token endpoint and a 2xx transport response whose embedded per-record
status is "error", reports the ok outcome carrying the body verbatim — the
delivery is not failed, refuting that every such response is reported as a
DeliveryError. -/
theorem c1_counterexample_pushLeadToZoho_trusts_transport :
    (pushLeadToZoho TokenCacheEntry.init 0 (.ok ⟨some "ZT", some 3600⟩) (.ok exErrEnvelope)).1
      = PushOutcome.ok exErrEnvelope
    ∧ exErrEnvelope.data.head?.map ZohoRecordResult.status = some (some "error")
    ∧ PushOutcome.ok exErrEnvelope ≠ PushOutcome.err := by
  decide

/-! ## C5 -/

/-- C5: with one lead already queued and the pending file unreadable, index.js
addPendingLead catches nothing — loadPending silently maps the read failure to
the empty list — so the enqueue reports success while persisting only the new
lead: the previously queued lead is silently dropped instead of the failure
being surfaced. -/
theorem c5_addPendingLead_read_fault_drops_queue :
    loadPending [exLeadOld] true = []
    ∧ addPendingLead [exLeadOld] exLeadNew true false = .ok [exLeadNew]
    ∧ exLeadOld ∉ [exLeadNew]
    ∧ addPendingLead [exLeadOld] exLeadNew false true = .error () := by
  exact ⟨rfl, rfl, by decide, rfl⟩

/-! ## C6 -/

/-- C6 counterexample: index.js getZohoAccessToken caches the refreshed token
with expiry `now + expires_in*1000` exactly (here 3600000 at now = 0 for a
3600 s TTL); no positive fixed safety margin m satisfies
3600000 = 0 + 3600*1000 - m, so the claimed `now + ttl - margin` formula fails
on this call. -/
theorem c6_counterexample_index_zoho_no_margin :
    (getZohoAccessTokenIdx TokenCacheEntry.init 0 (.ok ⟨some "ZT", some 3600⟩)).2.1.expiresAt
      = some 3600000
    ∧ ¬ ∃ m : Int, 0 < m ∧ (3600000 : Int) = 0 + 3600 * 1000 - m := by
  constructor
  · decide
  · rintro ⟨m, hm, he⟩
    omega

/-- C6 (amended): on a cache miss, part_001 getZohoAccessToken stores expiry
`now + (reported TTL)*1000 - 10 minutes` for a truthy (nonzero) reported TTL,
and `now + 50 minutes` — the 3600 s default minus the margin — when the body
reports no TTL or the JS-falsy TTL 0; getPFToken of part_001 and of index.js
(whose response carries no TTL field) always stores the flat `now + 50 minutes`;
index.js getZohoAccessToken applies no margin: `now + TTL*1000` exactly. -/
theorem c6_amended_token_expiry_computation (cache : TokenCacheEntry) (now : Int)
    (hmiss : cacheValid cache now = false) :
    (∀ tok ttl, truthy tok = true → ttl ≠ 0 →
       (getZohoAccessTokenP001 cache now (.ok ⟨tok, some ttl⟩)).2.1.expiresAt
         = some (now + ttl * 1000 - 10 * 60 * 1000))
    ∧ (∀ tok, truthy tok = true →
       (getZohoAccessTokenP001 cache now (.ok ⟨tok, none⟩)).2.1.expiresAt
         = some (now + 50 * 60 * 1000))
    ∧ (∀ tok, truthy tok = true →
       (getZohoAccessTokenP001 cache now (.ok ⟨tok, some 0⟩)).2.1.expiresAt
         = some (now + 50 * 60 * 1000))
    ∧ (∀ b : PFTokenResponse, truthy b.accessToken = true →
       (getPFToken cache now (.ok b)).2.1.expiresAt = some (now + 50 * 60 * 1000))
    ∧ (∀ b : PFTokenResponse,
       (getPFTokenIdx cache now (.ok b)).2.1.expiresAt = some (now + 50 * 60 * 1000))
    ∧ (∀ tok ttl,
       (getZohoAccessTokenIdx cache now (.ok ⟨tok, some ttl⟩)).2.1.expiresAt
         = some (now + ttl * 1000)) := by
  refine ⟨?_, ?_, ?_, ?_, ?_, ?_⟩
  · intro tok ttl htok httl
    unfold getZohoAccessTokenP001
    rw [if_neg (by simp [hmiss])]
    simp [htok, jsOrI, httl]
  · intro tok htok
    unfold getZohoAccessTokenP001
    rw [if_neg (by simp [hmiss])]
    simp [htok, jsOrI]
    omega
  · intro tok htok
    unfold getZohoAccessTokenP001
    rw [if_neg (by simp [hmiss])]
    simp [htok, jsOrI]
    omega
  · intro b hb
    unfold getPFToken
    rw [if_neg (by simp [hmiss])]
    simp [hb]
  · intro b
    unfold getPFTokenIdx
    rw [if_neg (by simp [hmiss])]
  · intro tok ttl
    unfold getZohoAccessTokenIdx
    rw [if_neg (by simp [hmiss])]
    simp

/-- C6 witness: the amended expiry equations at a fresh cache, time 0, token
"T": part_001 Zoho with a 3600 s TTL, with no TTL and with the falsy TTL 0,
both PF variants, and index.js Zoho with a 3600 s TTL. -/
theorem c6_witness :
    (getZohoAccessTokenP001 TokenCacheEntry.init 0 (.ok ⟨some "T", some 3600⟩)).2.1.expiresAt
      = some (0 + 3600 * 1000 - 10 * 60 * 1000)
    ∧ (getZohoAccessTokenP001 TokenCacheEntry.init 0 (.ok ⟨some "T", none⟩)).2.1.expiresAt
      = some (0 + 50 * 60 * 1000)
    ∧ (getZohoAccessTokenP001 TokenCacheEntry.init 0 (.ok ⟨some "T", some 0⟩)).2.1.expiresAt
      = some (0 + 50 * 60 * 1000)
    ∧ (getPFToken TokenCacheEntry.init 0 (.ok ⟨some "T"⟩)).2.1.expiresAt
      = some (0 + 50 * 60 * 1000)
    ∧ (getPFTokenIdx TokenCacheEntry.init 0 (.ok ⟨none⟩)).2.1.expiresAt
      = some (0 + 50 * 60 * 1000)
    ∧ (getZohoAccessTokenIdx TokenCacheEntry.init 0 (.ok ⟨some "T", some 3600⟩)).2.1.expiresAt
      = some (0 + 3600 * 1000) := by
  have h := c6_amended_token_expiry_computation TokenCacheEntry.init 0 (by decide)
  exact ⟨h.1 (some "T") 3600 (by decide) (by decide), h.2.1 (some "T") (by decide),
         h.2.2.1 (some "T") (by decide), h.2.2.2.1 ⟨some "T"⟩ (by decide),
         h.2.2.2.2.1 ⟨none⟩, h.2.2.2.2.2 (some "T") 3600⟩

/-! ## C2 -/

/-- C2: a request whose x-signature header is missing or differs from the
HMAC-SHA256 hex digest of the body is answered with the 401 unauthorized
response by both webhook handlers, with the whole shared state (token caches,
dedup ledger, durable queue) returned unchanged and every side-effect counter
(normalization, dedup reads and writes, delivery attempts, enqueues) at zero. -/
theorem c2_invalid_signature_rejected_without_side_effects
    (hmacOfBody : LeadBody → String) (req : Request)
    (hbad : validateWebhookSignature req.signature (hmacOfBody req.body) = false) :
    (∀ s now w, p001Handler hmacOfBody s now w req = (.unauthorized, s, Effects.zero))
    ∧ (∀ s now w, idxHandler hmacOfBody s now w req = (.unauthorized, s, Effects.zero)) := by
  constructor
  · intro s now w
    unfold p001Handler
    rw [hbad]
    simp
  · intro s now w
    unfold idxHandler
    rw [hbad]
    simp

/-- C2 witness: the concrete request signed "BAD" against expected digest "SIG"
is rejected by both handlers with untouched state and zero effect counters. -/
theorem c2_witness :
    p001Handler exHmac exS0 0 exWorldOk { signature := some "BAD", body := exBody }
      = (.unauthorized, exS0, Effects.zero)
    ∧ idxHandler exHmac exIdxS0 0 exIdxWorld { signature := some "BAD", body := exBody }
      = (.unauthorized, exIdxS0, Effects.zero) := by
  have h := c2_invalid_signature_rejected_without_side_effects exHmac
    { signature := some "BAD", body := exBody } (by decide)
  exact ⟨h.1 exS0 0 exWorldOk, h.2 exIdxS0 0 exIdxWorld⟩

/-! ## C7 -/

/-- One recordLead application keeps the ledger within capacity. -/
theorem recordLead_length_le {s : List String} (x : String)
    (h : s.length ≤ LEAD_CACHE_SIZE) : (recordLead s x).length ≤ LEAD_CACHE_SIZE := by
  unfold recordLead setAdd evictIfOver
  by_cases hm : x ∈ s
  · rw [if_pos hm, if_neg (by omega)]
    exact h
  · rw [if_neg hm]
    by_cases hl : LEAD_CACHE_SIZE < (s ++ [x]).length
    · rw [if_pos hl]
      simp only [List.length_tail, List.length_append, List.length_singleton] at *
      omega
    · rw [if_neg hl]
      omega

/-- C7: the dedup ledger, driven from empty by any sequence of record
operations, never exceeds LEAD_CACHE_SIZE = 1000 fingerprints; recording an
already-present fingerprint leaves the ledger — membership and insertion order —
exactly unchanged; and an insertion into a full ledger of a fresh fingerprint
evicts exactly the oldest-inserted element (the head), keeping the rest in
order and appending the new fingerprint last. -/
theorem c7_dedup_ledger_bounded_fifo :
    (∀ ops : List String, (ops.foldl recordLead []).length ≤ LEAD_CACHE_SIZE)
    ∧ (∀ (s : List String) (x : String), s.length ≤ LEAD_CACHE_SIZE → x ∈ s →
        recordLead s x = s)
    ∧ (∀ (s : List String) (x : String), s.length = LEAD_CACHE_SIZE → x ∉ s →
        recordLead s x = s.tail ++ [x]) := by
  refine ⟨?_, ?_, ?_⟩
  · intro ops
    have key : ∀ (l : List String), l.length ≤ LEAD_CACHE_SIZE →
        (ops.foldl recordLead l).length ≤ LEAD_CACHE_SIZE := by
      induction ops with
      | nil => intro l hl; simpa using hl
      | cons a ops ih =>
        intro l hl
        exact ih (recordLead l a) (recordLead_length_le a hl)
    exact key [] (by simp [LEAD_CACHE_SIZE])
  · intro s x hlen hmem
    unfold recordLead setAdd
    rw [if_pos hmem]
    exact evictIfOver_of_le hlen
  · intro s x hlen hmem
    unfold recordLead setAdd evictIfOver
    rw [if_neg hmem, if_pos (by simp [hlen])]
    cases s with
    | nil => simp [LEAD_CACHE_SIZE] at hlen
    | cons a t => simp

/-- C7 witness: the capacity bound after three concrete record operations, the
no-op re-record of a present fingerprint, and the FIFO eviction out of a full
ledger of 1000 copies of "a" when "b" is inserted. -/
theorem c7_witness :
    ((["a", "b", "a"].foldl recordLead []).length ≤ LEAD_CACHE_SIZE)
    ∧ recordLead ["a", "b"] "a" = ["a", "b"]
    ∧ recordLead (List.replicate LEAD_CACHE_SIZE "a") "b"
        = (List.replicate LEAD_CACHE_SIZE "a").tail ++ ["b"] := by
  refine ⟨c7_dedup_ledger_bounded_fifo.1 _,
          c7_dedup_ledger_bounded_fifo.2.1 _ _ (by decide) (by decide),
          c7_dedup_ledger_bounded_fifo.2.2 _ _ (by simp) (by simp [List.mem_replicate])⟩

/-! ## C4 -/

/-- Counting the satisfying and the failing elements of a list tallies its length. -/
theorem countP_not_add {α : Type} (p : α → Bool) (l : List α) :
    l.countP p + l.countP (fun a => !p a) = l.length := by
  induction l with
  | nil => simp
  | cons a t ih =>
    by_cases h : p a = true
    · simp [List.countP_cons, h]
      omega
    · simp [List.countP_cons, h]
      omega

/-- Accumulator-generalized description of the retry loop: final counts add the
per-outcome tallies, the still-failing leads are appended in order, and every
lead of the input is attempted in order. -/
theorem drainGo_spec (oracle : CleanLead → Bool) (ls : List CleanLead) :
    ∀ s f still att, drainGo oracle ls s f still att
      = (s + ls.countP oracle, f + ls.countP (fun l => !oracle l),
         still ++ ls.filter (fun l => !oracle l), att ++ ls) := by
  induction ls with
  | nil =>
    intro s f still att
    simp [drainGo]
  | cons l ls ih =>
    intro s f still att
    by_cases h : oracle l
    · rw [drainGo, if_pos h, ih]
      simp [List.countP_cons, h]
      omega
    · rw [drainGo, if_neg h, ih]
      simp [List.countP_cons, h, eq_false_of_ne_true h]
      omega

/-- C4 (amended): for every nonempty queue state, one drain attempts every
queued entry exactly once in original order, persists exactly the failed
entries in their original relative order, and reports total = the number
attempted with success + failed = total and remaining = the length of the
persisted list; on the empty state the endpoint instead answers the no-pending
message, leaving the (empty) list untouched and attempting nothing. -/
theorem c4_amended_drainAndRetry_spec (pending : List CleanLead) (oracle : CleanLead → Bool)
    (hne : pending ≠ []) :
    retryPending pending oracle
      = (.counts pending.length (pending.countP oracle) (pending.countP (fun l => !oracle l))
          ((pending.filter (fun l => !oracle l)).length),
         pending.filter (fun l => !oracle l), pending)
    ∧ pending.countP oracle + pending.countP (fun l => !oracle l) = pending.length
    ∧ retryPending [] oracle = (.noPending, [], []) := by
  refine ⟨?_, countP_not_add oracle pending, by rfl⟩
  unfold retryPending
  rw [if_neg (by simpa using hne)]
  rw [drainGo_spec]
  simp

/-- C4 counterexample: a drain of the empty queue answers the bare no-pending
message, not a counts object — in particular not counts with total 0 — so the
response of this call does not report total/success/failed/remaining. -/
theorem c4_counterexample_empty_drain_reports_no_counts :
    (retryPending [] (fun _ => true)).1 = DrainResponse.noPending
    ∧ (retryPending [] (fun _ => true)).1 ≠ DrainResponse.counts 0 0 0 0 := by
  decide

/-- C4 witness: draining the two-lead queue, of which only the one with an
email delivers, answers counts 2/1/1/1, persists exactly the failing lead and
attempts both leads in order. -/
theorem c4_witness :
    retryPending [exLeadOld, exLeadNew] exOracle
      = (.counts 2 1 1 1, [exLeadNew], [exLeadOld, exLeadNew]) := by
  have h := (c4_amended_drainAndRetry_spec [exLeadOld, exLeadNew] exOracle (by decide)).1
  exact h.trans (by decide)

/-! ## C9 -/

/-- C9: for each upstream and each embedded variant of its getter, a first call
that misses the cache and exchanges successfully performs exactly one upstream
call (the count is 1), and a second call made while the freshly cached token is
unexpired performs zero upstream calls — whatever the network would answer —
returning the very same token result and leaving the cache entry unchanged. -/
theorem c9_token_cache_single_exchange :
    (∀ cache now (b : PFTokenResponse) r1 c1 n1 now2 net2,
       cacheValid cache now = false → truthy b.accessToken = true →
       getPFToken cache now (.ok b) = (r1, c1, n1) → jsLtB now2 c1.expiresAt = true →
       n1 = 1 ∧ getPFToken c1 now2 net2 = (r1, c1, 0))
    ∧ (∀ cache now (b : PFTokenResponse) r1 c1 n1 now2 net2,
       cacheValid cache now = false → truthy b.accessToken = true →
       getPFTokenIdx cache now (.ok b) = (r1, c1, n1) → jsLtB now2 c1.expiresAt = true →
       n1 = 1 ∧ getPFTokenIdx c1 now2 net2 = (r1, c1, 0))
    ∧ (∀ cache now (b : ZohoTokenResponse) r1 c1 n1 now2 net2,
       cacheValid cache now = false → truthy b.access_token = true →
       getZohoAccessTokenP001 cache now (.ok b) = (r1, c1, n1) → jsLtB now2 c1.expiresAt = true →
       n1 = 1 ∧ getZohoAccessTokenP001 c1 now2 net2 = (r1, c1, 0))
    ∧ (∀ cache now (b : ZohoTokenResponse) r1 c1 n1 now2 net2,
       cacheValid cache now = false → truthy b.access_token = true →
       getZohoAccessTokenIdx cache now (.ok b) = (r1, c1, n1) → jsLtB now2 c1.expiresAt = true →
       n1 = 1 ∧ getZohoAccessTokenIdx c1 now2 net2 = (r1, c1, 0)) := by
  refine ⟨?_, ?_, ?_, ?_⟩
  · intro cache now b r1 c1 n1 now2 net2 hmiss htok h1 hlt
    unfold getPFToken at h1 ⊢
    rw [if_neg (by simp [hmiss])] at h1
    simp [htok] at h1
    obtain ⟨hr, hc, hn⟩ := h1
    subst hr hc hn
    rw [if_pos (by simp [cacheValid, htok, hlt])]
    exact ⟨rfl, rfl⟩
  · intro cache now b r1 c1 n1 now2 net2 hmiss htok h1 hlt
    unfold getPFTokenIdx at h1 ⊢
    rw [if_neg (by simp [hmiss])] at h1
    simp at h1
    obtain ⟨hr, hc, hn⟩ := h1
    subst hr hc hn
    rw [if_pos (by simp [cacheValid, htok, hlt])]
    exact ⟨rfl, rfl⟩
  · intro cache now b r1 c1 n1 now2 net2 hmiss htok h1 hlt
    unfold getZohoAccessTokenP001 at h1 ⊢
    rw [if_neg (by simp [hmiss])] at h1
    simp [htok] at h1
    obtain ⟨hr, hc, hn⟩ := h1
    subst hr hc hn
    rw [if_pos (by simp [cacheValid, htok, hlt])]
    exact ⟨rfl, rfl⟩
  · intro cache now b r1 c1 n1 now2 net2 hmiss htok h1 hlt
    unfold getZohoAccessTokenIdx at h1 ⊢
    rw [if_neg (by simp [hmiss])] at h1
    simp at h1
    obtain ⟨hr, hc, hn⟩ := h1
    subst hr hc hn
    rw [if_pos (by simp [cacheValid, htok, hlt])]
    exact ⟨rfl, rfl⟩

/-- C9 witness: concrete double calls for all four getter variants, starting
from the fresh cache at time 0 with token "T", re-reading at time 1. -/
theorem c9_witness :
    getPFToken ⟨some "T", some 3000000⟩ 1 .fail = (.ok "T", ⟨some "T", some 3000000⟩, 0)
    ∧ getPFTokenIdx ⟨some "T", some 3000000⟩ 1 .fail = (.ok "T", ⟨some "T", some 3000000⟩, 0)
    ∧ getZohoAccessTokenP001 ⟨some "T", some 3000000⟩ 1 .fail
        = (.ok "T", ⟨some "T", some 3000000⟩, 0)
    ∧ getZohoAccessTokenIdx ⟨some "T", some 3600000⟩ 1 .fail
        = (.ok "T", ⟨some "T", some 3600000⟩, 0) := by
  refine ⟨?_, ?_, ?_, ?_⟩
  · exact (c9_token_cache_single_exchange.1 TokenCacheEntry.init 0 ⟨some "T"⟩
      (.ok "T") ⟨some "T", some 3000000⟩ 1 1 .fail (by decide) (by decide) (by decide) (by decide)).2
  · exact (c9_token_cache_single_exchange.2.1 TokenCacheEntry.init 0 ⟨some "T"⟩
      (.ok "T") ⟨some "T", some 3000000⟩ 1 1 .fail (by decide) (by decide) (by decide) (by decide)).2
  · exact (c9_token_cache_single_exchange.2.2.1 TokenCacheEntry.init 0 ⟨some "T", some 3600⟩
      (.ok "T") ⟨some "T", some 3000000⟩ 1 1 .fail (by decide) (by decide) (by decide) (by decide)).2
  · exact (c9_token_cache_single_exchange.2.2.2 TokenCacheEntry.init 0 ⟨some "T", some 3600⟩
      (.ok "T") ⟨some "T", some 3600000⟩ 1 1 .fail (by decide) (by decide) (by decide) (by decide)).2

/-! ## C8 -/

/-- Recognizer of email-typed contact entries. -/
def isEmailC (c : Contact) : Bool := c.type == "email"

/-- Recognizer of phone-or-mobile-typed contact entries. -/
def isPhoneOrMobileC (c : Contact) : Bool := c.type == "phone" || c.type == "mobile"

/-- Recognizer of mobile-typed contact entries. -/
def isMobileC (c : Contact) : Bool := c.type == "mobile"

/-- jsOrS keeps a truthy left operand. -/
theorem jsOrS_pos {a : Option String} (b : Option String) (h : truthy a = true) :
    jsOrS a b = a := by
  unfold jsOrS
  rw [if_pos h]

/-- jsOrS falls through a falsy left operand. -/
theorem jsOrS_neg {a : Option String} (b : Option String) (h : truthy a = false) :
    jsOrS a b = b := by
  unfold jsOrS
  rw [if_neg (by simp [h])]

/-- jsOrS with nothing on the right is the identity away from `some ""`. -/
theorem jsOrS_none_right {a : Option String} (h : a ≠ some "") : jsOrS a none = a := by
  cases ha : truthy a
  · rw [jsOrS_neg none ha]
    exact (eq_none_of_not_truthy ha h).symm
  · exact jsOrS_pos none ha

/-- Accumulator-generalized description of the part_001 extractContacts loop,
for contact arrays whose values are nonempty (JS-truthy): each component of the
fold result is the accumulator's component when that is already truthy, and
otherwise the value of the first entry of the respective recognized type —
where the phone component is governed by the first phone-OR-mobile entry. -/
theorem extractStep_foldl_spec (cs : List Contact) :
    ∀ acc : Contacts3, (∀ c ∈ cs, c.value ≠ "") →
      acc.email ≠ some "" → acc.phone ≠ some "" → acc.mobile ≠ some "" →
      (cs.foldl extractStep acc).email
          = jsOrS acc.email ((cs.find? isEmailC).map Contact.value)
      ∧ (cs.foldl extractStep acc).phone
          = jsOrS acc.phone ((cs.find? isPhoneOrMobileC).map Contact.value)
      ∧ (cs.foldl extractStep acc).mobile
          = jsOrS acc.mobile ((cs.find? isMobileC).map Contact.value) := by
  induction cs with
  | nil =>
    intro acc hv he hp hm
    refine ⟨?_, ?_, ?_⟩ <;> simp [jsOrS_none_right, he, hp, hm]
  | cons c cs ih =>
    intro acc hv he hp hm
    have hcv : c.value ≠ "" := hv c (by simp)
    have htc : truthy (some c.value) = true := by simp [truthy, hcv]
    have hv' : ∀ x ∈ cs, x.value ≠ "" := fun x hx => hv x (by simp [hx])
    rw [List.foldl_cons]
    by_cases hA : c.type = "email" ∧ truthy acc.email = false
    · have hEm : isEmailC c = true := by simp [isEmailC, hA.1]
      have hPm : isPhoneOrMobileC c = false := by simp [isPhoneOrMobileC, hA.1]
      have hMo : isMobileC c = false := by simp [isMobileC, hA.1]
      have hstep : extractStep acc c = ⟨some c.value, acc.phone, acc.mobile⟩ := by
        unfold extractStep
        rw [if_pos hA]
      rw [hstep]
      obtain ⟨ihe, ihp, ihm⟩ :=
        ih ⟨some c.value, acc.phone, acc.mobile⟩ hv' (by simp [hcv]) hp hm
      dsimp only at ihe ihp ihm
      refine ⟨?_, ?_, ?_⟩
      · rw [ihe, List.find?_cons_of_pos _ hEm, jsOrS_pos _ htc, jsOrS_neg _ hA.2]
        rfl
      · rw [ihp, List.find?_cons_of_neg _ (by simp [hPm])]
      · rw [ihm, List.find?_cons_of_neg _ (by simp [hMo])]
    · by_cases hB : c.type = "phone" ∨ c.type = "mobile"
      · have hEm : isEmailC c = false := by
          rcases hB with h | h <;> simp [isEmailC, h]
        have hPm : isPhoneOrMobileC c = true := by
          rcases hB with h | h <;> simp [isPhoneOrMobileC, h]
        rcases hB with hPh | hMb
        · have hMo : isMobileC c = false := by simp [isMobileC, hPh]
          cases hp5 : truthy acc.phone
          · have hstep : extractStep acc c = ⟨acc.email, some c.value, acc.mobile⟩ := by
              unfold extractStep
              rw [if_neg hA, if_pos (Or.inl hPh)]
              unfold extractStepPM
              rw [if_pos hp5]
              unfold extractStepMob
              rw [if_neg (by simp [hPh])]
            rw [hstep]
            obtain ⟨ihe, ihp, ihm⟩ :=
              ih ⟨acc.email, some c.value, acc.mobile⟩ hv' he (by simp [hcv]) hm
            dsimp only at ihe ihp ihm
            refine ⟨?_, ?_, ?_⟩
            · rw [ihe, List.find?_cons_of_neg _ (by simp [hEm])]
            · rw [ihp, List.find?_cons_of_pos _ hPm, jsOrS_pos _ htc, jsOrS_neg _ hp5]
              rfl
            · rw [ihm, List.find?_cons_of_neg _ (by simp [hMo])]
          · have hstep : extractStep acc c = acc := by
              unfold extractStep
              rw [if_neg hA, if_pos (Or.inl hPh)]
              unfold extractStepPM
              rw [if_neg (by simp [hp5])]
              unfold extractStepMob
              rw [if_neg (by simp [hPh])]
            rw [hstep]
            obtain ⟨ihe, ihp, ihm⟩ := ih acc hv' he hp hm
            refine ⟨?_, ?_, ?_⟩
            · rw [ihe, List.find?_cons_of_neg _ (by simp [hEm])]
            · rw [ihp, List.find?_cons_of_pos _ hPm, jsOrS_pos _ hp5, jsOrS_pos _ hp5]
            · rw [ihm, List.find?_cons_of_neg _ (by simp [hMo])]
        · have hMo : isMobileC c = true := by simp [isMobileC, hMb]
          cases hp5 : truthy acc.phone
          · cases hm6 : truthy acc.mobile
            · have hstep : extractStep acc c = ⟨acc.email, some c.value, some c.value⟩ := by
                unfold extractStep
                rw [if_neg hA, if_pos (Or.inr hMb)]
                unfold extractStepPM
                rw [if_pos hp5]
                unfold extractStepMob
                have hq : truthy (⟨acc.email, some c.value, acc.mobile⟩ : Contacts3).mobile = false := hm6
                rw [if_pos (And.intro hMb hq)]
              rw [hstep]
              obtain ⟨ihe, ihp, ihm⟩ :=
                ih ⟨acc.email, some c.value, some c.value⟩ hv' he (by simp [hcv]) (by simp [hcv])
              dsimp only at ihe ihp ihm
              refine ⟨?_, ?_, ?_⟩
              · rw [ihe, List.find?_cons_of_neg _ (by simp [hEm])]
              · rw [ihp, List.find?_cons_of_pos _ hPm, jsOrS_pos _ htc, jsOrS_neg _ hp5]
                rfl
              · rw [ihm, List.find?_cons_of_pos _ hMo, jsOrS_pos _ htc, jsOrS_neg _ hm6]
                rfl
            · have hstep : extractStep acc c = ⟨acc.email, some c.value, acc.mobile⟩ := by
                unfold extractStep
                rw [if_neg hA, if_pos (Or.inr hMb)]
                unfold extractStepPM
                rw [if_pos hp5]
                unfold extractStepMob
                rw [if_neg (by simp [hm6])]
              rw [hstep]
              obtain ⟨ihe, ihp, ihm⟩ :=
                ih ⟨acc.email, some c.value, acc.mobile⟩ hv' he (by simp [hcv]) hm
              dsimp only at ihe ihp ihm
              refine ⟨?_, ?_, ?_⟩
              · rw [ihe, List.find?_cons_of_neg _ (by simp [hEm])]
              · rw [ihp, List.find?_cons_of_pos _ hPm, jsOrS_pos _ htc, jsOrS_neg _ hp5]
                rfl
              · rw [ihm, List.find?_cons_of_pos _ hMo, jsOrS_pos _ hm6, jsOrS_pos _ hm6]
          · cases hm6 : truthy acc.mobile
            · have hstep : extractStep acc c = ⟨acc.email, acc.phone, some c.value⟩ := by
                unfold extractStep
                rw [if_neg hA, if_pos (Or.inr hMb)]
                unfold extractStepPM
                rw [if_neg (by simp [hp5])]
                unfold extractStepMob
                rw [if_pos (And.intro hMb hm6)]
              rw [hstep]
              obtain ⟨ihe, ihp, ihm⟩ :=
                ih ⟨acc.email, acc.phone, some c.value⟩ hv' he hp (by simp [hcv])
              dsimp only at ihe ihp ihm
              refine ⟨?_, ?_, ?_⟩
              · rw [ihe, List.find?_cons_of_neg _ (by simp [hEm])]
              · rw [ihp, List.find?_cons_of_pos _ hPm, jsOrS_pos _ hp5, jsOrS_pos _ hp5]
              · rw [ihm, List.find?_cons_of_pos _ hMo, jsOrS_pos _ htc, jsOrS_neg _ hm6]
                rfl
            · have hstep : extractStep acc c = acc := by
                unfold extractStep
                rw [if_neg hA, if_pos (Or.inr hMb)]
                unfold extractStepPM
                rw [if_neg (by simp [hp5])]
                unfold extractStepMob
                rw [if_neg (by simp [hm6])]
              rw [hstep]
              obtain ⟨ihe, ihp, ihm⟩ := ih acc hv' he hp hm
              refine ⟨?_, ?_, ?_⟩
              · rw [ihe, List.find?_cons_of_neg _ (by simp [hEm])]
              · rw [ihp, List.find?_cons_of_pos _ hPm, jsOrS_pos _ hp5, jsOrS_pos _ hp5]
              · rw [ihm, List.find?_cons_of_pos _ hMo, jsOrS_pos _ hm6, jsOrS_pos _ hm6]
      · have hstep : extractStep acc c = acc := by
          unfold extractStep
          rw [if_neg hA, if_neg hB]
        have hPm : isPhoneOrMobileC c = false := by
          simp only [not_or] at hB
          simp [isPhoneOrMobileC, hB.1, hB.2]
        have hMo : isMobileC c = false := by
          simp only [not_or] at hB
          simp [isMobileC, hB.2]
        rw [hstep]
        obtain ⟨ihe, ihp, ihm⟩ := ih acc hv' he hp hm
        refine ⟨?_, ?_, ?_⟩
        · cases hEm : isEmailC c
          · rw [ihe, List.find?_cons_of_neg _ (by simp [hEm])]
          · have hat : truthy acc.email = true := by
              by_contra hx
              exact hA ⟨by simpa [isEmailC] using hEm, by simpa using hx⟩
            rw [ihe, List.find?_cons_of_pos _ hEm, jsOrS_pos _ hat, jsOrS_pos _ hat]
        · rw [ihp, List.find?_cons_of_neg _ (by simp [hPm])]
        · rw [ihm, List.find?_cons_of_neg _ (by simp [hMo])]

/-- C8 counterexample: on the contact array [mobile "M", phone "P"] — which
contains an explicit phone entry — both variants of extractContacts return "M",
the earlier mobile value, as phone, not the explicit phone entry "P" the claim
requires. -/
theorem c8_counterexample_mobile_shadows_phone :
    (extractContacts [⟨"mobile", "M"⟩, ⟨"phone", "P"⟩]).phone = some "M"
    ∧ (extractContacts [⟨"mobile", "M"⟩, ⟨"phone", "P"⟩]).phone ≠ some "P"
    ∧ isPhoneOrMobileC ⟨"phone", "P"⟩ = true
    ∧ (extractContactsIdx [⟨"mobile", "M"⟩, ⟨"phone", "P"⟩]).phone = some "M" := by
  decide

/-- Accumulator-generalized description of the index.js extractContacts loop,
for contact arrays whose values are nonempty (JS-truthy): each component of the
fold result is the accumulator's component when that is already truthy, and
otherwise the value of the first email-typed entry (email) or the first entry
typed phone OR mobile (phone). -/
theorem extractStepIdx_foldl_spec (cs : List Contact) :
    ∀ acc : Contacts2, (∀ c ∈ cs, c.value ≠ "") →
      acc.email ≠ some "" → acc.phone ≠ some "" →
      (cs.foldl extractStepIdx acc).email
          = jsOrS acc.email ((cs.find? isEmailC).map Contact.value)
      ∧ (cs.foldl extractStepIdx acc).phone
          = jsOrS acc.phone ((cs.find? isPhoneOrMobileC).map Contact.value) := by
  induction cs with
  | nil =>
    intro acc hv he hp
    exact ⟨by simp [jsOrS_none_right, he], by simp [jsOrS_none_right, hp]⟩
  | cons c cs ih =>
    intro acc hv he hp
    have hcv : c.value ≠ "" := hv c (by simp)
    have htc : truthy (some c.value) = true := by simp [truthy, hcv]
    have hv' : ∀ x ∈ cs, x.value ≠ "" := fun x hx => hv x (by simp [hx])
    rw [List.foldl_cons]
    by_cases hA : c.type = "email" ∧ truthy acc.email = false
    · have hEm : isEmailC c = true := by simp [isEmailC, hA.1]
      have hPm : isPhoneOrMobileC c = false := by simp [isPhoneOrMobileC, hA.1]
      have hstep : extractStepIdx acc c = ⟨some c.value, acc.phone⟩ := by
        unfold extractStepIdx
        rw [if_pos hA]
        unfold extractStepIdxPh
        rw [if_neg (by simp [hA.1])]
      rw [hstep]
      obtain ⟨ihe, ihp⟩ := ih ⟨some c.value, acc.phone⟩ hv' (by simp [hcv]) hp
      dsimp only at ihe ihp
      refine ⟨?_, ?_⟩
      · rw [ihe, List.find?_cons_of_pos _ hEm, jsOrS_pos _ htc, jsOrS_neg _ hA.2]
        rfl
      · rw [ihp, List.find?_cons_of_neg _ (by simp [hPm])]
    · by_cases hB : c.type = "phone" ∨ c.type = "mobile"
      · have hEm : isEmailC c = false := by
          rcases hB with h | h <;> simp [isEmailC, h]
        have hPm : isPhoneOrMobileC c = true := by
          rcases hB with h | h <;> simp [isPhoneOrMobileC, h]
        have hfirst : (if c.type = "email" ∧ truthy acc.email = false
            then (⟨some c.value, acc.phone⟩ : Contacts2) else acc) = acc := by
          rw [if_neg hA]
        cases hp5 : truthy acc.phone
        · have hstep : extractStepIdx acc c = ⟨acc.email, some c.value⟩ := by
            unfold extractStepIdx
            rw [hfirst]
            unfold extractStepIdxPh
            rw [if_pos (And.intro hB hp5)]
          rw [hstep]
          obtain ⟨ihe, ihp⟩ := ih ⟨acc.email, some c.value⟩ hv' he (by simp [hcv])
          dsimp only at ihe ihp
          refine ⟨?_, ?_⟩
          · rw [ihe, List.find?_cons_of_neg _ (by simp [hEm])]
          · rw [ihp, List.find?_cons_of_pos _ hPm, jsOrS_pos _ htc, jsOrS_neg _ hp5]
            rfl
        · have hstep : extractStepIdx acc c = acc := by
            unfold extractStepIdx
            rw [hfirst]
            unfold extractStepIdxPh
            rw [if_neg (by simp [hp5])]
          rw [hstep]
          obtain ⟨ihe, ihp⟩ := ih acc hv' he hp
          refine ⟨?_, ?_⟩
          · rw [ihe, List.find?_cons_of_neg _ (by simp [hEm])]
          · rw [ihp, List.find?_cons_of_pos _ hPm, jsOrS_pos _ hp5, jsOrS_pos _ hp5]
      · have hPm : isPhoneOrMobileC c = false := by
          simp only [not_or] at hB
          simp [isPhoneOrMobileC, hB.1, hB.2]
        have hstep : extractStepIdx acc c = acc := by
          unfold extractStepIdx
          rw [if_neg hA]
          unfold extractStepIdxPh
          rw [if_neg (by simp [hB])]
        rw [hstep]
        obtain ⟨ihe, ihp⟩ := ih acc hv' he hp
        refine ⟨?_, ?_⟩
        · cases hEm : isEmailC c
          · rw [ihe, List.find?_cons_of_neg _ (by simp [hEm])]
          · have hat : truthy acc.email = true := by
              by_contra hx
              exact hA ⟨by simpa [isEmailC] using hEm, by simpa using hx⟩
            rw [ihe, List.find?_cons_of_pos _ hEm, jsOrS_pos _ hat, jsOrS_pos _ hat]
        · rw [ihp, List.find?_cons_of_neg _ (by simp [hPm])]

/-- C8 (amended): for contact arrays with nonempty values, both variants of
extractContacts return as email the value of the first email-typed entry, and
as phone the value of the first entry typed phone OR mobile — an earlier mobile
entry wins over a later explicit phone entry; the claimed fallback order holds
only when no mobile entry precedes the first explicit phone entry. -/
theorem c8_amended_extractContacts_first_of_type (contacts : List Contact)
    (hv : ∀ c ∈ contacts, c.value ≠ "") :
    (extractContacts contacts).email = (contacts.find? isEmailC).map Contact.value
    ∧ (extractContacts contacts).phone = (contacts.find? isPhoneOrMobileC).map Contact.value
    ∧ (extractContactsIdx contacts).email = (contacts.find? isEmailC).map Contact.value
    ∧ (extractContactsIdx contacts).phone = (contacts.find? isPhoneOrMobileC).map Contact.value := by
  have hidx := extractStepIdx_foldl_spec contacts ⟨none, none⟩ hv (by simp) (by simp)
  have hp001 : (extractContacts contacts).email = (contacts.find? isEmailC).map Contact.value
      ∧ (extractContacts contacts).phone = (contacts.find? isPhoneOrMobileC).map Contact.value := by
    cases contacts with
    | nil => exact ⟨rfl, rfl⟩
    | cons c cs =>
      obtain ⟨he, hph, hmo⟩ :=
        extractStep_foldl_spec (c :: cs) ⟨none, none, none⟩ hv (by simp) (by simp) (by simp)
      have hphone : (List.foldl extractStep ⟨none, none, none⟩ (c :: cs)).phone
          = ((c :: cs).find? isPhoneOrMobileC).map Contact.value := by
        rw [hph, jsOrS_neg _ (by simp [truthy])]
      have hmob : (List.foldl extractStep ⟨none, none, none⟩ (c :: cs)).mobile
          = ((c :: cs).find? isMobileC).map Contact.value := by
        rw [hmo, jsOrS_neg _ (by simp [truthy])]
      refine ⟨?_, ?_⟩
      · calc (extractContacts (c :: cs)).email
            = (List.foldl extractStep ⟨none, none, none⟩ (c :: cs)).email := rfl
          _ = jsOrS none (((c :: cs).find? isEmailC).map Contact.value) := he
          _ = ((c :: cs).find? isEmailC).map Contact.value := jsOrS_neg _ (by simp [truthy])
      · calc (extractContacts (c :: cs)).phone
            = jsOrS (List.foldl extractStep ⟨none, none, none⟩ (c :: cs)).phone
                    (List.foldl extractStep ⟨none, none, none⟩ (c :: cs)).mobile := rfl
          _ = ((c :: cs).find? isPhoneOrMobileC).map Contact.value := ?_
        rw [hphone, hmob]
        cases hf : (c :: cs).find? isPhoneOrMobileC with
        | some cp =>
          have hcpv : cp.value ≠ "" := hv cp (List.mem_of_find?_eq_some hf)
          simp [jsOrS, truthy, hcpv]
        | none =>
          have hmnone : (c :: cs).find? isMobileC = none := by
            rw [List.find?_eq_none] at hf ⊢
            intro x hx hmx
            apply hf x hx
            simp only [isMobileC] at hmx
            simp [isPhoneOrMobileC, hmx]
          rw [hmnone]
          rfl
  refine ⟨hp001.1, hp001.2, ?_, ?_⟩
  · unfold extractContactsIdx
    rw [hidx.1, jsOrS_neg _ (by simp [truthy])]
  · unfold extractContactsIdx
    rw [hidx.2, jsOrS_neg _ (by simp [truthy])]

/-- C8 witness: on [email "e@x", mobile "M", phone "P"] both variants return
the first email entry as email and the first phone-or-mobile entry "M" as
phone. -/
theorem c8_witness :
    (extractContacts [⟨"email", "e@x"⟩, ⟨"mobile", "M"⟩, ⟨"phone", "P"⟩]).email = some "e@x"
    ∧ (extractContacts [⟨"email", "e@x"⟩, ⟨"mobile", "M"⟩, ⟨"phone", "P"⟩]).phone = some "M"
    ∧ (extractContactsIdx [⟨"email", "e@x"⟩, ⟨"mobile", "M"⟩, ⟨"phone", "P"⟩]).email = some "e@x"
    ∧ (extractContactsIdx [⟨"email", "e@x"⟩, ⟨"mobile", "M"⟩, ⟨"phone", "P"⟩]).phone = some "M" := by
  have h := c8_amended_extractContacts_first_of_type
    [⟨"email", "e@x"⟩, ⟨"mobile", "M"⟩, ⟨"phone", "P"⟩] (by decide)
  exact ⟨h.1.trans (by decide), h.2.1.trans (by decide),
         h.2.2.1.trans (by decide), h.2.2.2.trans (by decide)⟩

/-- C1 (amended): the part_001 webhook handler inspects the create-response
body: whenever the Zoho create call answers 2xx with a first record whose
embedded status is "error", the request never produces a success response (the
error is thrown and caught as a delivery failure) and the dedup ledger is left
untouched. index.js pushLeadToZoho, by contrast, returns any 2xx body without
inspection (the counterexample), so only the part_001 variant satisfies the
body-inspection requirement. -/
theorem c1_amended_p001_embedded_error_is_failure
    (hmacOfBody : LeadBody → String) (s : P001State) (now : Int) (w : P001World)
    (req : Request) (body : ZohoCreateResponse) (rd : ZohoRecordResult)
    (hnet : w.zohoCreateNet = .ok body) (hhd : body.data.head? = some rd)
    (hst : rd.status = some "error") :
    (∀ zid, (p001Handler hmacOfBody s now w req).1 ≠ P001Response.success zid)
    ∧ (p001Handler hmacOfBody s now w req).2.1.processedLeads = s.processedLeads := by
  have hchk : p001CheckZohoResponse body = Except.error (jsStrT rd.message) := by
    simp [p001CheckZohoResponse, hhd, hst]
  by_cases hv : validateWebhookSignature req.signature (hmacOfBody req.body) = false
  · simp [p001Handler, hv]
  · cases hsend : p001Sender req.body with
    | none => simp [p001Handler, hv, hsend]
    | some sender =>
      by_cases hdup : generateLeadId req.body ∈ s.processedLeads
      · simp [p001Handler, hv, hsend, hdup]
      · by_cases hc : truthy (extractContacts sender.contacts).email = false
            ∧ truthy (extractContacts sender.contacts).phone = false
        · simp [p001Handler, hv, hsend, hdup, hc]
        · rcases htok : getZohoAccessTokenP001 s.zohoCache now w.zohoTokenNet with ⟨tr, zc, n⟩
          cases tr with
          | authError => simp [p001Handler, hv, hsend, hdup, hc, htok]
          | ok t => simp [p001Handler, hv, hsend, hdup, hc, htok, hnet, hchk]

/-- C1 witness: in the concrete world whose create call answers 2xx with an
embedded error record, the handler on the signed request does not answer
success and the ledger stays empty. -/
theorem c1_witness :
    (p001Handler exHmac exS0 0 exWorldErr exReq).1 ≠ P001Response.success none
    ∧ (p001Handler exHmac exS0 0 exWorldErr exReq).2.1.processedLeads = exS0.processedLeads := by
  have h := c1_amended_p001_embedded_error_is_failure exHmac exS0 0 exWorldErr exReq
    exErrEnvelope ⟨some "error", some "INVALID_DATA", none, none⟩ rfl rfl rfl
  exact ⟨h.1 none, h.2⟩

/-! ## C3 -/

/-- C3: when a valid, correctly signed request ends in a success response whose
Zoho lead id is truthy (a created CRM record), the body's fingerprint is in the
ledger afterwards; and any re-delivery of the identical body — same request,
hence same digest and same fingerprint — against a state still holding that
fingerprint is answered 200 duplicate with the state unchanged and the
duplicate-path effect counters, whose delivery count is zero: no second
forwarder call. -/
theorem c3_duplicate_redelivery_skipped
    (hmacOfBody : LeadBody → String) (s : P001State) (now : Int) (w : P001World)
    (req : Request) (zid : Option String) (s' : P001State) (eff : Effects)
    (hrun : p001Handler hmacOfBody s now w req = (.success zid, s', eff))
    (hid : truthy zid = true) :
    generateLeadId req.body ∈ s'.processedLeads
    ∧ effAfterDedup.deliveryCalls = 0
    ∧ ∀ s2 now2 w2, generateLeadId req.body ∈ s2.processedLeads →
        p001Handler hmacOfBody s2 now2 w2 req = (.duplicate, s2, effAfterDedup) := by
  by_cases hv : validateWebhookSignature req.signature (hmacOfBody req.body) = false
  · simp [p001Handler, hv] at hrun
  · cases hsend : p001Sender req.body with
    | none => simp [p001Handler, hv, hsend] at hrun
    | some sender =>
      by_cases hdup : generateLeadId req.body ∈ s.processedLeads
      · simp [p001Handler, hv, hsend, hdup] at hrun
      · by_cases hc : truthy (extractContacts sender.contacts).email = false
            ∧ truthy (extractContacts sender.contacts).phone = false
        · simp [p001Handler, hv, hsend, hdup, hc] at hrun
        · rcases htok : getZohoAccessTokenP001 s.zohoCache now w.zohoTokenNet with ⟨tr, zc, n⟩
          cases tr with
          | authError => simp [p001Handler, hv, hsend, hdup, hc, htok] at hrun
          | ok t =>
            cases hcn : w.zohoCreateNet with
            | fail => simp [p001Handler, hv, hsend, hdup, hc, htok, hcn] at hrun
            | ok body =>
              cases hchk : p001CheckZohoResponse body with
              | error e => simp [p001Handler, hv, hsend, hdup, hc, htok, hcn, hchk] at hrun
              | ok zid2 =>
                simp [p001Handler, hv, hsend, hdup, hc, htok, hcn, hchk] at hrun
                obtain ⟨hz2, hs', heff⟩ := hrun
                subst hz2
                refine ⟨?_, rfl, ?_⟩
                · rw [← hs']
                  dsimp only
                  rw [if_pos hid, setAdd, if_neg hdup]
                  exact mem_evictIfOver_append _ _
                · intro s2 now2 w2 hmem
                  simp [p001Handler, hv, hsend, hmem]

/-- First-call state of the C3 witness scenario: the state after the concrete
successful delivery of exReq from the fresh state. -/
def exS1 : P001State := (p001Handler exHmac exS0 0 exWorldOk exReq).2.1

/-- C3 witness: the concrete successful delivery records the fingerprint, and
re-delivering the identical request one time unit later is answered duplicate
with zero delivery calls and the state unchanged. -/
theorem c3_witness :
    generateLeadId exBody ∈ exS1.processedLeads
    ∧ p001Handler exHmac exS1 1 exWorldOk exReq = (.duplicate, exS1, effAfterDedup) := by
  have h := c3_duplicate_redelivery_skipped exHmac exS0 0 exWorldOk exReq (some "Z1") exS1
    (effDelivered 1) (by decide) (by decide)
  exact ⟨h.1, h.2.2 exS1 1 exWorldOk h.1⟩

/-! ## C10 -/

/-- C10: from any state not yet holding the body's fingerprint and within the
ledger capacity, the part_001 handler adds the fingerprint exactly when the
request ends in a success response with a truthy Zoho lead id (a created
record); on every other outcome — rejection, duplicate-free failure, thrown
delivery error, or a success envelope carrying no record id — the ledger is
exactly unchanged, so a later re-delivery of the lead is not suppressed. -/
theorem c10_ledger_marks_only_created_leads
    (hmacOfBody : LeadBody → String) (s : P001State) (now : Int) (w : P001World)
    (req : Request)
    (hnot : generateLeadId req.body ∉ s.processedLeads)
    (hlen : s.processedLeads.length ≤ LEAD_CACHE_SIZE) :
    ((∃ zid, (p001Handler hmacOfBody s now w req).1 = P001Response.success zid
        ∧ truthy zid = true)
      ↔ generateLeadId req.body ∈ (p001Handler hmacOfBody s now w req).2.1.processedLeads)
    ∧ ((∀ zid, (p001Handler hmacOfBody s now w req).1 = P001Response.success zid
        → truthy zid = false)
      → (p001Handler hmacOfBody s now w req).2.1.processedLeads = s.processedLeads) := by
  by_cases hv : validateWebhookSignature req.signature (hmacOfBody req.body) = false
  · simp [p001Handler, hv, hnot]
  · cases hsend : p001Sender req.body with
    | none => simp [p001Handler, hv, hsend, hnot]
    | some sender =>
      by_cases hc : truthy (extractContacts sender.contacts).email = false
          ∧ truthy (extractContacts sender.contacts).phone = false
      · simp [p001Handler, hv, hsend, hnot, hc]
      · rcases htok : getZohoAccessTokenP001 s.zohoCache now w.zohoTokenNet with ⟨tr, zc, n⟩
        cases tr with
        | authError => simp [p001Handler, hv, hsend, hnot, hc, htok]
        | ok t =>
          cases hcn : w.zohoCreateNet with
          | fail => simp [p001Handler, hv, hsend, hnot, hc, htok, hcn]
          | ok body =>
            cases hchk : p001CheckZohoResponse body with
            | error e => simp [p001Handler, hv, hsend, hnot, hc, htok, hcn, hchk]
            | ok zid =>
              cases hz : truthy zid with
              | false =>
                simp [p001Handler, hv, hsend, hnot, hc, htok, hcn, hchk, hz,
                      evictIfOver_of_le hlen]
              | true =>
                have hmem : generateLeadId req.body
                    ∈ evictIfOver (setAdd s.processedLeads (generateLeadId req.body)) := by
                  rw [setAdd, if_neg hnot]
                  exact mem_evictIfOver_append _ _
                simp [p001Handler, hv, hsend, hnot, hc, htok, hcn, hchk, hz, hmem]

/-- C10 witness: in the concrete embedded-error world the delivery fails, so
the fresh ledger stays empty after the request; in the all-ok world the
delivery creates record Z1 and the fingerprint is recorded. -/
theorem c10_witness :
    (p001Handler exHmac exS0 0 exWorldErr exReq).2.1.processedLeads = exS0.processedLeads
    ∧ generateLeadId exReq.body ∈ (p001Handler exHmac exS0 0 exWorldOk exReq).2.1.processedLeads := by
  have herr := c10_ledger_marks_only_created_leads exHmac exS0 0 exWorldErr exReq
    (by decide) (by decide)
  have hok := c10_ledger_marks_only_created_leads exHmac exS0 0 exWorldOk exReq
    (by decide) (by decide)
  refine ⟨herr.2 ?_, hok.1.mp ⟨some "Z1", by decide, by decide⟩⟩
  intro zid hzf
  have hresp : (p001Handler exHmac exS0 0 exWorldErr exReq).1 = P001Response.serverError := by
    decide
  rw [hresp] at hzf
  exact absurd hzf (by simp)

end PfToZoho
